import Mathlib

/-!
Shallow embedding of the orbital mechanics engine
(`src/features/orbital_mechanics.py`) of the asteroid-risk repository.

Python floats are modelled by real numbers; `datetime` values are modelled
as real-valued absolute times in seconds (so `timedelta(days = d)` is
`d * 86400` seconds and `total_seconds` is the identity); Python's float
`%` operator is modelled by `pymod` below.  The optional descriptive
metadata fields of `OrbitalElements` (name, catalog id, diameter, hazard
flag) take no part in any propagation computation and are omitted from the
record.
-/

noncomputable section

namespace OrbitalMech

/-- Constant `AU_TO_KM` from the source: kilometers per astronomical unit. -/
def AU_TO_KM : ℝ := 149597870.7

/-- Constant `DEG_TO_RAD = math.pi / 180` from the source. -/
def DEG_TO_RAD : ℝ := Real.pi / 180

/-- Constant `RAD_TO_DEG = 180 / math.pi` from the source. -/
def RAD_TO_DEG : ℝ := 180 / Real.pi

/-- Python's float `%` operator: `x % y = x - y * floor (x / y)`
(result has the sign of the divisor). -/
def pymod (x y : ℝ) : ℝ := x - y * ⌊x / y⌋

/-- The `OrbitalElements` dataclass: the six Keplerian elements and the
reference epoch (absolute time in seconds).  Angles are in degrees and the
semi-major axis in AU, exactly as in the source. -/
structure OrbitalElements where
  semi_major_axis : ℝ
  eccentricity : ℝ
  inclination : ℝ
  longitude_ascending_node : ℝ
  argument_perihelion : ℝ
  mean_anomaly : ℝ
  epoch : ℝ

/-- The `CartesianState` dataclass: heliocentric ecliptic position in km
and a velocity that the source always fills with zeros. -/
structure CartesianState where
  x : ℝ
  y : ℝ
  z : ℝ
  vx : ℝ
  vy : ℝ
  vz : ℝ

/-- One Newton-Raphson step of `solve_kepler_equation`:
`E_new = E - (E - e*sin E - M) / (1 - e*cos E)`. -/
def keplerStep (M e E : ℝ) : ℝ :=
  E - (E - e * Real.sin E - M) / (1 - e * Real.cos E)

/-- The initial guess of `solve_kepler_equation`: `M` when `e < 0.8`,
otherwise `π`. -/
def keplerInit (M e : ℝ) : ℝ :=
  if e < 0.8 then M else Real.pi

/-- The bounded Newton-Raphson loop of `solve_kepler_equation`: with fuel
`max_iter`, compute `E_new`; if `|E_new - E| < tolerance` return `E_new`,
else continue from `E_new`; when the fuel runs out return the current
estimate. -/
def keplerLoop (M e tolerance : ℝ) : ℕ → ℝ → ℝ
  | 0, E => E
  | n + 1, E =>
    if |keplerStep M e E - E| < tolerance then keplerStep M e E
    else keplerLoop M e tolerance n (keplerStep M e E)

/-- `OrbitalMechanics.solve_kepler_equation(M, e, tolerance, max_iter)`. -/
def solve_kepler_equation (M e tolerance : ℝ) (max_iter : ℕ) : ℝ :=
  keplerLoop M e tolerance max_iter (keplerInit M e)

/-- The sequence of Newton-Raphson iterates from a starting estimate;
used to state properties of `keplerLoop` (the loop visits exactly these
values). -/
def keplerIter (M e E₀ : ℝ) : ℕ → ℝ
  | 0 => E₀
  | k + 1 => keplerStep M e (keplerIter M e E₀ k)

/-- `OrbitalMechanics.eccentric_to_true_anomaly(E, e)` converts eccentric
to true anomaly by the half-angle substitution.  `atan2` models Python's
`math.atan2(y, x)` as the argument of the complex number `x + y*i`
(both lie in `(-π, π]` and agree everywhere, `atan2 0 0 = 0` included). -/
def atan2 (y x : ℝ) : ℝ := Complex.arg ⟨x, y⟩

/-- `OrbitalMechanics.eccentric_to_true_anomaly(E, e)`. -/
def eccentric_to_true_anomaly (E e : ℝ) : ℝ :=
  let beta := e / (1 + Real.sqrt (1 - e ^ 2))
  E + 2 * atan2 (beta * Real.sin E) (1 - beta * Real.cos E)

/-- `OrbitalMechanics.orbital_radius(a, e, nu) = a*(1-e^2)/(1+e*cos nu)`. -/
def orbital_radius (a e nu : ℝ) : ℝ :=
  a * (1 - e ^ 2) / (1 + e * Real.cos nu)

/-- `OrbitalMechanics.mean_motion(a_au)`: period in years is `sqrt(a^3)`,
in days that times 365.25, and mean motion is `2π / period_days`. -/
def mean_motion (a_au : ℝ) : ℝ :=
  2 * Real.pi / (Real.sqrt (a_au ^ 3) * 365.25)

/-- `OrbitalMechanics.propagate_mean_anomaly(elements, target_time)`:
`dt` in days, `M_new = (M₀·DEG_TO_RAD + n·dt) % 2π`, returned after
conversion by `RAD_TO_DEG`. -/
def propagate_mean_anomaly (elements : OrbitalElements) (target_time : ℝ) : ℝ :=
  let dt := (target_time - elements.epoch) / 86400
  let n := mean_motion elements.semi_major_axis
  let M_new := pymod (elements.mean_anomaly * DEG_TO_RAD + n * dt) (2 * Real.pi)
  M_new * RAD_TO_DEG

/-- `OrbitalMechanics.orbital_elements_to_cartesian(elements, target_time)`:
propagate the mean anomaly, solve Kepler's equation (with the source's
default tolerance `1e-10` and 100 iterations), convert to true anomaly,
compute the radius, form the orbital-plane position and apply the three
rotations (argument of perihelion, inclination, ascending node). -/
def orbital_elements_to_cartesian (elements : OrbitalElements) (target_time : ℝ) :
    CartesianState :=
  let a := elements.semi_major_axis * AU_TO_KM
  let e := elements.eccentricity
  let i := elements.inclination * DEG_TO_RAD
  let Omega := elements.longitude_ascending_node * DEG_TO_RAD
  let omega := elements.argument_perihelion * DEG_TO_RAD
  let M := propagate_mean_anomaly elements target_time * DEG_TO_RAD
  let E := solve_kepler_equation M e (1e-10) 100
  let nu := eccentric_to_true_anomaly E e
  let r := orbital_radius a e nu
  let x_orbital := r * Real.cos nu
  let y_orbital := r * Real.sin nu
  let x1 := Real.cos omega * x_orbital - Real.sin omega * y_orbital
  let y1 := Real.sin omega * x_orbital + Real.cos omega * y_orbital
  let x2 := x1
  let y2 := Real.cos i * y1
  let z2 := Real.sin i * y1
  let x_ecl := Real.cos Omega * x2 - Real.sin Omega * y2
  let y_ecl := Real.sin Omega * x2 + Real.cos Omega * y2
  let z_ecl := z2
  ⟨x_ecl, y_ecl, z_ecl, 0, 0, 0⟩

/-- `OrbitalMechanics.generate_orbit_points(elements, num_points,
center_on_earth)`: the `i`-th point samples the orbit at
`epoch + (i/num_points)·period`; with `center_on_earth` a circular 1-AU
Earth at angle `(i/num_points)·2π` is subtracted from `x` and `y`. -/
def generate_orbit_points (elements : OrbitalElements) (num_points : ℕ)
    (center_on_earth : Bool) : List (ℝ × ℝ × ℝ) :=
  let period_days := Real.sqrt (elements.semi_major_axis ^ 3) * 365.25
  (List.range num_points).map fun (i : ℕ) =>
    let target_time := elements.epoch + (i : ℝ) / num_points * period_days * 86400
    let state := orbital_elements_to_cartesian elements target_time
    if center_on_earth then
      let earth_angle := (i : ℝ) / num_points * (2 * Real.pi)
      (state.x - AU_TO_KM * Real.cos earth_angle,
       state.y - AU_TO_KM * Real.sin earth_angle,
       state.z)
    else
      (state.x, state.y, state.z)

/-- The Euclidean asteroid-Earth distance computed by one iteration of
`OrbitalMechanics.calculate_close_approach` at integer `day`.
`dayOfYear` is a parameter modelling the Python `datetime` library
expression `(target_time - datetime(target_time.year, 1, 1)).days`
(day of year of the sampled instant); it is standard-library calendar
code, not code of this repository, so it is passed in abstractly. -/
def approach_distance (dayOfYear : ℝ → ℝ) (elements : OrbitalElements)
    (day : ℕ) : ℝ :=
  let target_time := elements.epoch + (day : ℝ) * 86400
  let ast := orbital_elements_to_cartesian elements target_time
  let earth_angle := dayOfYear target_time / 365.25 * (2 * Real.pi)
  let earth_x := AU_TO_KM * Real.cos earth_angle
  let earth_y := AU_TO_KM * Real.sin earth_angle
  Real.sqrt ((ast.x - earth_x) ^ 2 + (ast.y - earth_y) ^ 2 + ast.z ^ 2)

/-- One iteration of the minimum-tracking loop of
`calculate_close_approach`: keep `(min_time, min_distance)` unless the
distance at `day` is strictly smaller.  `min_distance` lives in
`WithTop ℝ` whose `⊤` models the initial `float('inf')`. -/
def approachStep (dayOfYear : ℝ → ℝ) (elements : OrbitalElements)
    (acc : ℝ × WithTop ℝ) (day : ℕ) : ℝ × WithTop ℝ :=
  if (approach_distance dayOfYear elements day : WithTop ℝ) < acc.2 then
    (elements.epoch + (day : ℝ) * 86400,
     (approach_distance dayOfYear elements day : WithTop ℝ))
  else acc

/-- `OrbitalMechanics.calculate_close_approach(elements, days_ahead)`:
scan every integer day in `[0, days_ahead)` starting from
`(epoch, float('inf'))`. -/
def calculate_close_approach (dayOfYear : ℝ → ℝ) (elements : OrbitalElements)
    (days_ahead : ℕ) : ℝ × WithTop ℝ :=
  (List.range days_ahead).foldl (approachStep dayOfYear elements)
    (elements.epoch, (⊤ : WithTop ℝ))

/-- Concrete elements used by witnesses: a circular 1-AU orbit with all
angles zero and epoch 0. -/
def testElems : OrbitalElements := ⟨1, 0, 0, 0, 0, 0, 0⟩

/-- Concrete elements used by witnesses: as `testElems` but with mean
anomaly 180 degrees. -/
def testElems180 : OrbitalElements := ⟨1, 0, 0, 0, 0, 180, 0⟩

lemma pymod_nonneg_lt (x y : ℝ) (hy : 0 < y) : 0 ≤ pymod x y ∧ pymod x y < y := by
  have h : pymod x y = y * Int.fract (x / y) := by
    simp only [pymod, Int.fract]
    field_simp
  refine ⟨?_, ?_⟩
  · rw [h]
    exact mul_nonneg hy.le (Int.fract_nonneg _)
  · rw [h]
    calc y * Int.fract (x / y) < y * 1 := (mul_lt_mul_left hy).mpr (Int.fract_lt_one _)
      _ = y := mul_one y

lemma pymod_deg_rad (M₀ : ℝ) :
    pymod (M₀ * DEG_TO_RAD) (2 * Real.pi) * RAD_TO_DEG = pymod M₀ 360 := by
  have hπ : Real.pi ≠ 0 := Real.pi_ne_zero
  have h1 : M₀ * DEG_TO_RAD / (2 * Real.pi) = M₀ / 360 := by
    unfold DEG_TO_RAD
    field_simp
    ring
  unfold pymod
  rw [h1]
  unfold DEG_TO_RAD RAD_TO_DEG
  field_simp
  ring

lemma propagate_mean_anomaly_epoch (elements : OrbitalElements) :
    propagate_mean_anomaly elements elements.epoch =
      pymod elements.mean_anomaly 360 := by
  have h := pymod_deg_rad elements.mean_anomaly
  simpa [propagate_mean_anomaly] using h

/-- C4: at the record's own epoch the elapsed time is zero, so
`propagate_mean_anomaly` returns the stored mean anomaly reduced modulo
360 degrees. -/
theorem propagate_at_epoch_mod360 (elements : OrbitalElements)
    (ha : 0 < elements.semi_major_axis) :
    propagate_mean_anomaly elements elements.epoch =
      pymod elements.mean_anomaly 360 :=
  propagate_mean_anomaly_epoch elements

/-- Witness for C4 at concrete elements with mean anomaly 180 and
semi-major axis 1 AU. -/
theorem propagate_at_epoch_mod360_witness :
    0 < testElems180.semi_major_axis ∧
    propagate_mean_anomaly testElems180 testElems180.epoch = pymod 180 360 := by
  have h := propagate_at_epoch_mod360 testElems180 (by norm_num [testElems180])
  exact ⟨by norm_num [testElems180], by simpa [testElems180] using h⟩

/-- C2 counterexample: on elements with mean anomaly 180 degrees, at the
epoch, `propagate_mean_anomaly` returns 180, which does not lie in the
claimed interval [0, 2π) — the function returns degrees, not radians. -/
theorem propagate_mean_anomaly_not_radians :
    0 < testElems180.semi_major_axis ∧
    propagate_mean_anomaly testElems180 testElems180.epoch = 180 ∧
    ¬ propagate_mean_anomaly testElems180 testElems180.epoch < 2 * Real.pi := by
  have hfloor : ⌊(180 : ℝ) / 360⌋ = 0 := by
    rw [show (180 : ℝ) / 360 = 1 / 2 by norm_num]
    rw [Int.floor_eq_zero_iff]
    constructor <;> norm_num
  have h : propagate_mean_anomaly testElems180 testElems180.epoch = 180 := by
    rw [propagate_mean_anomaly_epoch]
    show pymod (180 : ℝ) 360 = 180
    unfold pymod
    rw [hfloor]
    norm_num
  refine ⟨by norm_num [testElems180], h, ?_⟩
  rw [h]
  push_neg
  nlinarith [Real.pi_lt_d2]

/-- C2 (amended): for every record with positive semi-major axis and every
target time, `propagate_mean_anomaly` returns a value in DEGREES wrapped
into the half-open interval [0, 360). -/
theorem propagate_mean_anomaly_range (elements : OrbitalElements)
    (target_time : ℝ) (ha : 0 < elements.semi_major_axis) :
    0 ≤ propagate_mean_anomaly elements target_time ∧
      propagate_mean_anomaly elements target_time < 360 := by
  have key : ∀ X : ℝ,
      0 ≤ pymod X (2 * Real.pi) * RAD_TO_DEG ∧
        pymod X (2 * Real.pi) * RAD_TO_DEG < 360 := by
    intro X
    obtain ⟨h0, h1⟩ := pymod_nonneg_lt X (2 * Real.pi) Real.two_pi_pos
    have hπ : (0 : ℝ) < Real.pi := Real.pi_pos
    have hR : (0 : ℝ) < RAD_TO_DEG := by
      unfold RAD_TO_DEG
      positivity
    have h360 : 2 * Real.pi * RAD_TO_DEG = 360 := by
      unfold RAD_TO_DEG
      field_simp
      ring
    refine ⟨mul_nonneg h0 hR.le, ?_⟩
    have hlt := mul_lt_mul_of_pos_right h1 hR
    linarith
  have h := key (elements.mean_anomaly * DEG_TO_RAD +
    mean_motion elements.semi_major_axis * ((target_time - elements.epoch) / 86400))
  simpa [propagate_mean_anomaly] using h

/-- Witness for the amended C2 at concrete elements. -/
theorem propagate_mean_anomaly_range_witness :
    0 < testElems180.semi_major_axis ∧
    0 ≤ propagate_mean_anomaly testElems180 0 ∧
      propagate_mean_anomaly testElems180 0 < 360 := by
  have h := propagate_mean_anomaly_range testElems180 0 (by norm_num [testElems180])
  exact ⟨by norm_num [testElems180], h.1, h.2⟩

/-- C8: `orbital_radius` gives the perihelion distance `a(1-e)` at true
anomaly 0 and the aphelion distance `a(1+e)` at true anomaly π. -/
theorem orbital_radius_apsides (a e : ℝ) (h0 : 0 ≤ e) (h1 : e < 1) :
    orbital_radius a e 0 = a * (1 - e) ∧
    orbital_radius a e Real.pi = a * (1 + e) := by
  have he1 : 1 + e ≠ 0 := by linarith
  have he2 : 1 - e ≠ 0 := by linarith
  unfold orbital_radius
  constructor
  · rw [Real.cos_zero]
    field_simp
    ring
  · rw [Real.cos_pi]
    have hd : 1 + e * (-1) = 1 - e := by ring
    rw [hd]
    field_simp
    ring

/-- Witness for C8 at `a = 2`, `e = 1/2`. -/
theorem orbital_radius_apsides_witness :
    (0 : ℝ) ≤ 1 / 2 ∧ (1 / 2 : ℝ) < 1 ∧
    orbital_radius 2 (1 / 2) 0 = 2 * (1 - 1 / 2) ∧
    orbital_radius 2 (1 / 2) Real.pi = 2 * (1 + 1 / 2) := by
  obtain ⟨h1, h2⟩ := orbital_radius_apsides 2 (1 / 2) (by norm_num) (by norm_num)
  exact ⟨by norm_num, by norm_num, h1, h2⟩

/-- C9: with `days_ahead = 0` the scan loop of `calculate_close_approach`
never runs, and the initial accumulator `(epoch, float('inf'))` is
returned unchanged — an infinite sentinel, not an error. -/
theorem calculate_close_approach_empty (dayOfYear : ℝ → ℝ)
    (elements : OrbitalElements) :
    calculate_close_approach dayOfYear elements 0 =
      (elements.epoch, (⊤ : WithTop ℝ)) := rfl

/-- C1: with `0 ≤ e < 1` the Newton denominator `1 - e·cos E` is nonzero
at every iterate of `solve_kepler_equation`'s loop (starting from the
source's initial guess), so no iteration divides by zero. -/
theorem kepler_denominator_nonzero (M e : ℝ) (k : ℕ) (h0 : 0 ≤ e) (h1 : e < 1) :
    1 - e * Real.cos (keplerIter M e (keplerInit M e) k) ≠ 0 := by
  have hc : e * Real.cos (keplerIter M e (keplerInit M e) k) ≤ e :=
    mul_le_of_le_one_right h0 (Real.cos_le_one _)
  have hpos : 0 < 1 - e * Real.cos (keplerIter M e (keplerInit M e) k) := by
    linarith
  exact ne_of_gt hpos

/-- Witness for C1 at `M = 0`, `e = 1/2`, first iterate. -/
theorem kepler_denominator_nonzero_witness :
    (0 : ℝ) ≤ 1 / 2 ∧ (1 / 2 : ℝ) < 1 ∧
    1 - 1 / 2 * Real.cos (keplerIter 0 (1 / 2) (keplerInit 0 (1 / 2)) 0) ≠ 0 :=
  ⟨by norm_num, by norm_num,
    kepler_denominator_nonzero 0 (1 / 2) 0 (by norm_num) (by norm_num)⟩

lemma keplerIter_shift (M e E₀ : ℝ) (k : ℕ) :
    keplerIter M e (keplerStep M e E₀) k = keplerIter M e E₀ (k + 1) := by
  induction k with
  | zero => rfl
  | succ k ih => simp only [keplerIter, ih]

lemma keplerLoop_cases (M e tol : ℝ) :
    ∀ (n : ℕ) (E₀ : ℝ),
      (∃ k, k < n ∧
        |keplerIter M e E₀ (k + 1) - keplerIter M e E₀ k| < tol ∧
        (∀ j, j < k → ¬ |keplerIter M e E₀ (j + 1) - keplerIter M e E₀ j| < tol) ∧
        keplerLoop M e tol n E₀ = keplerIter M e E₀ (k + 1)) ∨
      ((∀ k, k < n → ¬ |keplerIter M e E₀ (k + 1) - keplerIter M e E₀ k| < tol) ∧
        keplerLoop M e tol n E₀ = keplerIter M e E₀ n) := by
  intro n
  induction n with
  | zero =>
    intro E₀
    exact Or.inr ⟨fun k hk => absurd hk (Nat.not_lt_zero k), rfl⟩
  | succ n ih =>
    intro E₀
    by_cases h : |keplerStep M e E₀ - E₀| < tol
    · left
      refine ⟨0, Nat.succ_pos n, ?_, ?_, ?_⟩
      · exact h
      · intro j hj
        exact absurd hj (Nat.not_lt_zero j)
      · simp only [keplerLoop, if_pos h]
        rfl
    · have hloop : keplerLoop M e tol (n + 1) E₀ =
          keplerLoop M e tol n (keplerStep M e E₀) := by
        simp only [keplerLoop, if_neg h]
      have h0 : ¬ |keplerIter M e E₀ 1 - keplerIter M e E₀ 0| < tol := h
      rcases ih (keplerStep M e E₀) with ⟨k, hk, hconv, hmin, heq⟩ | ⟨hnone, heq⟩
      · left
        refine ⟨k + 1, Nat.succ_lt_succ hk, ?_, ?_, ?_⟩
        · simpa only [keplerIter_shift] using hconv
        · intro j hj
          cases j with
          | zero => exact h0
          | succ j' =>
            have hj' : j' < k := Nat.lt_of_succ_lt_succ hj
            simpa only [keplerIter_shift] using hmin j' hj'
        · rw [hloop, heq]
          simp only [keplerIter_shift]
      · right
        refine ⟨?_, ?_⟩
        · intro k hk
          cases k with
          | zero => exact h0
          | succ k' =>
            simpa only [keplerIter_shift] using hnone k' (Nat.lt_of_succ_lt_succ hk)
        · rw [hloop, heq]
          simp only [keplerIter_shift]

/-- C3: `solve_kepler_equation` either stops at the FIRST Newton step whose
size drops below the tolerance and returns that iterate, or — when no step
within `max_iter` iterations converges — returns the `max_iter`-th iterate
as an ordinary real value (the return type carries no error or
non-convergence signal). -/
theorem solve_kepler_convergence (M e tolerance : ℝ) (max_iter : ℕ)
    (hm : 1 ≤ max_iter) :
    (∃ k, k < max_iter ∧
      |keplerIter M e (keplerInit M e) (k + 1) -
        keplerIter M e (keplerInit M e) k| < tolerance ∧
      (∀ j, j < k → ¬ |keplerIter M e (keplerInit M e) (j + 1) -
        keplerIter M e (keplerInit M e) j| < tolerance) ∧
      solve_kepler_equation M e tolerance max_iter =
        keplerIter M e (keplerInit M e) (k + 1)) ∨
    ((∀ k, k < max_iter → ¬ |keplerIter M e (keplerInit M e) (k + 1) -
        keplerIter M e (keplerInit M e) k| < tolerance) ∧
      solve_kepler_equation M e tolerance max_iter =
        keplerIter M e (keplerInit M e) max_iter) :=
  keplerLoop_cases M e tolerance max_iter (keplerInit M e)

/-- Witness for C3 at `M = 0`, `e = 0`, tolerance 1, one iteration. -/
theorem solve_kepler_convergence_witness :
    (1 : ℕ) ≤ 1 ∧
    ((∃ k, k < 1 ∧
      |keplerIter 0 0 (keplerInit 0 0) (k + 1) -
        keplerIter 0 0 (keplerInit 0 0) k| < 1 ∧
      (∀ j, j < k → ¬ |keplerIter 0 0 (keplerInit 0 0) (j + 1) -
        keplerIter 0 0 (keplerInit 0 0) j| < 1) ∧
      solve_kepler_equation 0 0 1 1 = keplerIter 0 0 (keplerInit 0 0) (k + 1)) ∨
    ((∀ k, k < 1 → ¬ |keplerIter 0 0 (keplerInit 0 0) (k + 1) -
        keplerIter 0 0 (keplerInit 0 0) k| < 1) ∧
      solve_kepler_equation 0 0 1 1 = keplerIter 0 0 (keplerInit 0 0) 1)) :=
  ⟨le_refl 1, solve_kepler_convergence 0 0 1 1 (le_refl 1)⟩

/-- C6: `generate_orbit_points` returns exactly `num_points` points; the
`k`-th point is `orbital_elements_to_cartesian` at
`epoch + (k/num_points)·period` with `period = sqrt(a³)·365.25` days, and
with `center_on_earth` a circular 1-AU Earth position at angle
`(k/num_points)·2π` is subtracted from the `x` and `y` components only. -/
theorem generate_orbit_points_spec (elements : OrbitalElements) (n k : ℕ)
    (c : Bool) (ha : 0 < elements.semi_major_axis) (hn : 1 ≤ n) (hk : k < n) :
    (generate_orbit_points elements n c).length = n ∧
    (generate_orbit_points elements n c)[k]? = some (
      let state := orbital_elements_to_cartesian elements
        (elements.epoch +
          (k : ℝ) / n * (Real.sqrt (elements.semi_major_axis ^ 3) * 365.25) * 86400)
      if c then
        (state.x - AU_TO_KM * Real.cos ((k : ℝ) / n * (2 * Real.pi)),
         state.y - AU_TO_KM * Real.sin ((k : ℝ) / n * (2 * Real.pi)),
         state.z)
      else
        (state.x, state.y, state.z)) := by
  constructor
  · simp only [generate_orbit_points, List.length_map, List.length_range]
  · simp only [generate_orbit_points, List.getElem?_map, List.getElem?_range hk,
      Option.map_some']

/-- Witness for C6 at the concrete test elements, one point, heliocentric. -/
theorem generate_orbit_points_spec_witness :
    0 < testElems.semi_major_axis ∧ (1 : ℕ) ≤ 1 ∧ (0 : ℕ) < 1 ∧
    (generate_orbit_points testElems 1 false).length = 1 ∧
    (generate_orbit_points testElems 1 false)[0]? = some
      ((orbital_elements_to_cartesian testElems
          (testElems.epoch +
            (0 : ℝ) / 1 * (Real.sqrt (testElems.semi_major_axis ^ 3) * 365.25) * 86400)).x,
       (orbital_elements_to_cartesian testElems
          (testElems.epoch +
            (0 : ℝ) / 1 * (Real.sqrt (testElems.semi_major_axis ^ 3) * 365.25) * 86400)).y,
       (orbital_elements_to_cartesian testElems
          (testElems.epoch +
            (0 : ℝ) / 1 * (Real.sqrt (testElems.semi_major_axis ^ 3) * 365.25) * 86400)).z) := by
  have h := generate_orbit_points_spec testElems 1 0 false
    (by norm_num [testElems]) (le_refl 1) (by norm_num)
  exact ⟨by norm_num [testElems], le_refl 1, by norm_num, h.1, by simpa using h.2⟩

/-- C10: the `z` component of each generated orbit point is the same
whether or not `center_on_earth` is set — the Earth subtraction touches
only `x` and `y`. -/
theorem generate_orbit_points_z_component (elements : OrbitalElements)
    (n k : ℕ) (ha : 0 < elements.semi_major_axis) (hn : 1 ≤ n) (hk : k < n) :
    Option.map (fun p : ℝ × ℝ × ℝ => p.2.2)
        ((generate_orbit_points elements n true)[k]?) =
      Option.map (fun p : ℝ × ℝ × ℝ => p.2.2)
        ((generate_orbit_points elements n false)[k]?) := by
  simp only [generate_orbit_points, List.getElem?_map, List.getElem?_range hk,
    Option.map_some']
  rfl

/-- Witness for C10 at the concrete test elements with one point. -/
theorem generate_orbit_points_z_component_witness :
    0 < testElems.semi_major_axis ∧ (1 : ℕ) ≤ 1 ∧ (0 : ℕ) < 1 ∧
    Option.map (fun p : ℝ × ℝ × ℝ => p.2.2)
        ((generate_orbit_points testElems 1 true)[0]?) =
      Option.map (fun p : ℝ × ℝ × ℝ => p.2.2)
        ((generate_orbit_points testElems 1 false)[0]?) :=
  ⟨by norm_num [testElems], le_refl 1, by norm_num,
    generate_orbit_points_z_component testElems 1 0
      (by norm_num [testElems]) (le_refl 1) (by norm_num)⟩

lemma approach_foldl (dayOfYear : ℝ → ℝ) (elements : OrbitalElements) :
    ∀ (l : List ℕ) (acc : ℝ × WithTop ℝ),
      ((l.foldl (approachStep dayOfYear elements) acc = acc) ∨
        ∃ d ∈ l, l.foldl (approachStep dayOfYear elements) acc =
          (elements.epoch + (d : ℝ) * 86400,
            (approach_distance dayOfYear elements d : WithTop ℝ))) ∧
      (l.foldl (approachStep dayOfYear elements) acc).2 ≤ acc.2 ∧
      ∀ j ∈ l, (l.foldl (approachStep dayOfYear elements) acc).2 ≤
        (approach_distance dayOfYear elements j : WithTop ℝ) := by
  intro l
  induction l with
  | nil =>
    intro acc
    refine ⟨Or.inl rfl, le_refl _, ?_⟩
    intro j hj
    exact absurd hj (List.not_mem_nil j)
  | cons d t ih =>
    intro acc
    rw [List.foldl_cons]
    by_cases h : (approach_distance dayOfYear elements d : WithTop ℝ) < acc.2
    · have hstep : approachStep dayOfYear elements acc d =
          (elements.epoch + (d : ℝ) * 86400,
            (approach_distance dayOfYear elements d : WithTop ℝ)) := by
        simp only [approachStep, if_pos h]
      obtain ⟨hor, hle, hall⟩ := ih (approachStep dayOfYear elements acc d)
      have hle2 : (t.foldl (approachStep dayOfYear elements)
            (approachStep dayOfYear elements acc d)).2 ≤
          (approach_distance dayOfYear elements d : WithTop ℝ) := by
        simpa [hstep] using hle
      refine ⟨?_, le_trans hle2 (le_of_lt h), ?_⟩
      · right
        rcases hor with heq | ⟨d', hd', heq⟩
        · exact ⟨d, List.mem_cons_self d t, by rw [heq, hstep]⟩
        · exact ⟨d', List.mem_cons_of_mem d hd', heq⟩
      · intro j hj
        rcases List.mem_cons.mp hj with rfl | hj'
        · exact hle2
        · exact hall j hj'
    · have hstep : approachStep dayOfYear elements acc d = acc := by
        simp only [approachStep, if_neg h]
      rw [hstep]
      obtain ⟨hor, hle, hall⟩ := ih acc
      refine ⟨?_, hle, ?_⟩
      · rcases hor with heq | ⟨d', hd', heq⟩
        · exact Or.inl heq
        · exact Or.inr ⟨d', List.mem_cons_of_mem d hd', heq⟩
      · intro j hj
        rcases List.mem_cons.mp hj with rfl | hj'
        · exact le_trans hle (not_lt.mp h)
        · exact hall j hj'

/-- C5: with a nonempty window, `calculate_close_approach` returns the
time `epoch + d` days for some integer `d` in `[0, days_ahead)` together
with the asteroid-Earth distance at that day, and that distance is
minimal over every integer day of the window. -/
theorem calculate_close_approach_min (dayOfYear : ℝ → ℝ)
    (elements : OrbitalElements) (days_ahead : ℕ) (hd : 1 ≤ days_ahead) :
    ∃ d, d < days_ahead ∧
      calculate_close_approach dayOfYear elements days_ahead =
        (elements.epoch + (d : ℝ) * 86400,
          (approach_distance dayOfYear elements d : WithTop ℝ)) ∧
      ∀ j, j < days_ahead →
        approach_distance dayOfYear elements d ≤
          approach_distance dayOfYear elements j := by
  obtain ⟨hor, hle, hall⟩ := approach_foldl dayOfYear elements
    (List.range days_ahead) (elements.epoch, (⊤ : WithTop ℝ))
  rcases hor with heq | ⟨d, hd', heq⟩
  · exfalso
    have h0 : (0 : ℕ) ∈ List.range days_ahead := List.mem_range.mpr hd
    have hcontr := hall 0 h0
    rw [heq] at hcontr
    have h2 : (⊤ : WithTop ℝ) ≤
        (approach_distance dayOfYear elements 0 : WithTop ℝ) := hcontr
    exact absurd (top_le_iff.mp h2) (WithTop.coe_ne_top)
  · refine ⟨d, List.mem_range.mp hd', heq, ?_⟩
    intro j hj
    have hj2 := hall j (List.mem_range.mpr hj)
    rw [heq] at hj2
    have h2 : (approach_distance dayOfYear elements d : WithTop ℝ) ≤
        (approach_distance dayOfYear elements j : WithTop ℝ) := hj2
    exact_mod_cast h2

/-- Constant day-of-year model used by the C5 witness. -/
def constDayOfYear : ℝ → ℝ := fun _ => 0

/-- Witness for C5 at the concrete test elements with a one-day window. -/
theorem calculate_close_approach_min_witness :
    (1 : ℕ) ≤ 1 ∧
    ∃ d : ℕ, d < 1 ∧
      calculate_close_approach constDayOfYear testElems 1 =
        (testElems.epoch + (d : ℝ) * 86400,
          (approach_distance constDayOfYear testElems d : WithTop ℝ)) ∧
      ∀ j, j < 1 →
        approach_distance constDayOfYear testElems d ≤
          approach_distance constDayOfYear testElems j :=
  ⟨le_refl 1, calculate_close_approach_min constDayOfYear testElems 1 (le_refl 1)⟩

lemma pymod_zero (y : ℝ) : pymod 0 y = 0 := by
  unfold pymod
  simp

lemma solve_kepler_zero (tol : ℝ) (htol : 0 < tol) (n : ℕ) :
    solve_kepler_equation 0 0 tol (n + 1) = 0 := by
  unfold solve_kepler_equation
  have hinit : keplerInit 0 0 = 0 := by
    unfold keplerInit
    rw [if_pos]
    norm_num
  have hstep : keplerStep 0 0 0 = 0 := by
    unfold keplerStep
    simp
  rw [hinit]
  simp only [keplerLoop, hstep, sub_zero, abs_zero]
  rw [if_pos htol]

lemma atan2_zero_one : atan2 0 1 = 0 := by
  unfold atan2
  have h : (⟨1, 0⟩ : ℂ) = 1 := by
    apply Complex.ext <;> simp
  rw [h, Complex.arg_one]

lemma eccentric_to_true_zero : eccentric_to_true_anomaly 0 0 = 0 := by
  unfold eccentric_to_true_anomaly
  simp [atan2_zero_one]

/-- C7: for a circular (e = 0) orbit of 1 AU, all angles zero, evaluated
at its own epoch, `orbital_elements_to_cartesian` returns exactly
`(149597870.7, 0, 0)` km. -/
theorem cartesian_circular_unit (t0 : ℝ) :
    (orbital_elements_to_cartesian ⟨1, 0, 0, 0, 0, 0, t0⟩ t0).x = 149597870.7 ∧
    (orbital_elements_to_cartesian ⟨1, 0, 0, 0, 0, 0, t0⟩ t0).y = 0 ∧
    (orbital_elements_to_cartesian ⟨1, 0, 0, 0, 0, 0, t0⟩ t0).z = 0 := by
  have hM : propagate_mean_anomaly ⟨1, 0, 0, 0, 0, 0, t0⟩ t0 = 0 := by
    have h := propagate_mean_anomaly_epoch ⟨1, 0, 0, 0, 0, 0, t0⟩
    simpa [pymod_zero] using h
  have hE : solve_kepler_equation 0 0 (1e-10) 100 = 0 := by
    rw [show (100 : ℕ) = 99 + 1 from rfl]
    exact solve_kepler_zero (1e-10) (by norm_num) 99
  have hr : orbital_radius AU_TO_KM 0 0 = AU_TO_KM := by
    unfold orbital_radius
    norm_num
  refine ⟨?_, ?_, ?_⟩ <;>
    simp only [orbital_elements_to_cartesian, hM, hE, eccentric_to_true_zero, hr,
      zero_mul, mul_zero, one_mul, mul_one, sub_zero, add_zero, zero_add,
      Real.cos_zero, Real.sin_zero] <;>
    norm_num [AU_TO_KM]

end OrbitalMech
